import Mathlib

/-!
Shallow embedding of the 2FA merchant-verification client
(session/verification orchestration core) and proofs about it.

Python `str` values are modelled as Lean `String`, Python `dict` payloads
whose consumed values are strings as association lists `StrDict`,
timestamps as `Int` seconds, and Python `None`-able strings as
`Option String`.  Signal emissions are returned explicitly.
-/

namespace TwoFA

/-- Python truthiness for an optional string: `None` and `""` are falsy. -/
def truthy (o : Option String) : Bool :=
  match o with
  | none => false
  | some s => s ≠ ""

/-- Python `a or b` over optional strings (first truthy operand, else `b`). -/
def pyOr (a b : Option String) : Option String :=
  if truthy a then a else b

/-- String-valued dictionary payload. -/
abbrev StrDict := List (String × String)

/-- Python `d.get(k)`. -/
def dictGet (d : StrDict) (k : String) : Option String :=
  match d with
  | [] => none
  | (k2, v) :: rest => if k2 = k then some v else dictGet rest k

/-- Python `d.get(k, dflt)`. -/
def dictGetD (d : StrDict) (k dflt : String) : String :=
  (dictGet d k).getD dflt

/-! ## Validators — src/src/utils/validators.py -/

/-- `str.isdigit()` on a char, restricted to ASCII digits. -/
def isDigitChar (c : Char) : Bool := c.isDigit

/-- Python `s.isdigit()`: non-empty and all digits. -/
def strIsDigit (s : String) : Bool :=
  !s.data.isEmpty && s.data.all isDigitChar

/-- Split a character list at every occurrence of `sep` (the semantics of
`str.split(sep)` / a single-character `String.splitOn`). -/
def splitChar (sep : Char) : List Char → List (List Char)
  | [] => [[]]
  | c :: rest =>
      match splitChar sep rest with
      | [] => if c = sep then [[], []] else [[c]]
      | h :: t => if c = sep then [] :: h :: t else (c :: h) :: t

/-- Python whitespace (the `\s` class over ASCII). -/
def isPySpace (c : Char) : Bool :=
  c = ' ' || c = '\t' || c = '\n' || c = '\r' || c = '\x0b' || c = '\x0c'

/-- Python `s.strip()` on the character list. -/
def pyStrip (l : List Char) : List Char :=
  ((l.dropWhile isPySpace).reverse.dropWhile isPySpace).reverse

/-- `validate_pin` (validators.py, lines 56-75). -/
def validate_pin (pin : String) : Bool × String :=
  if pin = "" then (false, "PIN is required")
  else if !strIsDigit pin then (false, "PIN must contain only digits")
  else if pin.length ≠ 6 then (false, "PIN must be exactly 6 digits")
  else (true, "")

/-- Hex digit, as in the UUID character class `[0-9a-fA-F]`. -/
def isHexChar (c : Char) : Bool :=
  c.isDigit || (('a' ≤ c) && (c ≤ 'f')) || (('A' ≤ c) && (c ≤ 'F'))

/-- Match of the UUID regex `^[hex]{8}-[hex]{4}-[hex]{4}-[hex]{4}-[hex]{12}$`. -/
def uuidShaped (l : List Char) : Bool :=
  match splitChar '-' l with
  | [a, b, c, d, e] =>
      decide (a.length = 8) && a.all isHexChar &&
      decide (b.length = 4) && b.all isHexChar &&
      decide (c.length = 4) && c.all isHexChar &&
      decide (d.length = 4) && d.all isHexChar &&
      decide (e.length = 12) && e.all isHexChar
  | _ => false

/-- Accumulate a decimal digit list into a `Nat`. -/
def digitsToNat (l : List Char) : Nat :=
  l.foldl (fun a c => 10 * a + (c.toNat - 48)) 0

/-- Python `int(s)` on an already-stripped character list: optional sign
then digits (underscore grouping is not modelled). -/
def pyInt (l : List Char) : Option Int :=
  match l with
  | '+' :: body =>
      if !body.isEmpty && body.all isDigitChar then
        some (Int.ofNat (digitsToNat body))
      else none
  | '-' :: body =>
      if !body.isEmpty && body.all isDigitChar then
        some (-(Int.ofNat (digitsToNat body)))
      else none
  | body =>
      if !body.isEmpty && body.all isDigitChar then
        some (Int.ofNat (digitsToNat body))
      else none

/-- `validate_merchant_id` (validators.py, lines 153-190). -/
def validate_merchant_id (merchantId : String) : Bool × String :=
  if merchantId = "" then (false, "Merchant ID is required")
  else
    let m := pyStrip merchantId.data
    if m.isEmpty then (false, "Merchant ID is required")
    else if uuidShaped m then (true, "")
    else
      match pyInt m with
      | some i =>
          if i ≤ 0 then (false, "Merchant ID must be a positive number")
          else (true, "")
      | none =>
          if m.length > 50 then (false, "Merchant ID is too long (max 50 characters)")
          else (true, "")

/-- Character class `[a-zA-Z0-9._%+-]` (email local part). -/
def emailLocalChar (c : Char) : Bool :=
  c.isAlpha || c.isDigit || c = '.' || c = '_' || c = '%' || c = '+' || c = '-'

/-- Character class `[a-zA-Z0-9.-]` (email domain part). -/
def emailDomainChar (c : Char) : Bool :=
  c.isAlpha || c.isDigit || c = '.' || c = '-'

/-- Does the list contain a dot followed by at least two alphabetic chars
reaching the end of the string (the `\.[a-zA-Z]{2,}$` tail, with the dot at
any position in the list)? -/
def hasDotAlphaTail : List Char → Bool
  | [] => false
  | c :: t =>
      (c = '.' && decide (2 ≤ t.length) && t.all Char.isAlpha) || hasDotAlphaTail t

/-- Match of the email regex
`^[a-zA-Z0-9._%+-]+@[a-zA-Z0-9.-]+\.[a-zA-Z]{2,}$`: one `@`, a non-empty
local part over its class, and a domain over its class that decomposes as a
non-empty prefix, a dot, and a final alphabetic run of length at least 2. -/
def emailMatches (s : String) : Bool :=
  match splitChar '@' s.data with
  | [localPart, domain] =>
      !localPart.isEmpty && localPart.all emailLocalChar &&
      domain.all emailDomainChar &&
      (match domain with
       | [] => false
       | _ :: rest => hasDotAlphaTail rest)
  | _ => false

/-- `validate_email` (validators.py, lines 8-30). -/
def validate_email (email : String) : Bool × String :=
  if email = "" then (false, "Email address is required")
  else if !emailMatches email then (false, "Invalid email address format")
  else if email.length > 254 then (false, "Email address is too long")
  else (true, "")

/-- Characters removed by the phone cleaner regex `[\s\-\(\)\.]`. -/
def phoneSeparator (c : Char) : Bool :=
  c = ' ' || c = '\t' || c = '\n' || c = '\r' || c = '\x0b' || c = '\x0c' ||
  c = '-' || c = '(' || c = ')' || c = '.'

/-- Match of `^\+?\d{10,15}$` on the cleaned phone string. -/
def phoneMatches (cleaned : List Char) : Bool :=
  let digitsPart := match cleaned with
    | '+' :: rest => rest
    | l => l
  decide (10 ≤ digitsPart.length) && decide (digitsPart.length ≤ 15) &&
  digitsPart.all isDigitChar

/-- `validate_phone` (validators.py, lines 33-53). -/
def validate_phone (phone : String) : Bool × String :=
  if phone = "" then (false, "Phone number is required")
  else
    let cleaned := phone.data.filter (fun c => !phoneSeparator c)
    if !phoneMatches cleaned then
      (false, "Invalid phone number format (10-15 digits required)")
    else (true, "")

/-! ## Error translator — src/src/utils/error_translator.py -/

/-- The `ERROR_MESSAGES` table of `ErrorTranslator`. -/
def ERROR_MESSAGES : StrDict :=
  [("invalid_credentials", "Invalid username or password"),
   ("invalid_token", "Your session has expired. Please log in again"),
   ("token_expired", "Your session has expired. Please log in again"),
   ("unauthorized", "You are not authorized to perform this action"),
   ("permission_denied", "You don't have permission to access this resource"),
   ("invalid_pin", "The PIN code you entered is incorrect"),
   ("pin_expired", "This PIN code has expired. Please request a new one"),
   ("max_attempts_exceeded", "Maximum verification attempts exceeded. Please try again later"),
   ("verification_failed", "Verification failed. Please try again"),
   ("invalid_email", "Invalid email address format"),
   ("invalid_phone", "Invalid phone number format"),
   ("connection_error", "Unable to connect to server. Please check your internet connection"),
   ("timeout", "Request timed out. Please try again"),
   ("network_error", "Network error occurred. Please try again"),
   ("server_error", "Server error occurred. Please try again later"),
   ("bad_request", "Invalid request. Please check your input"),
   ("not_found", "Resource not found"),
   ("rate_limit_exceeded", "Too many requests. Please wait a moment and try again"),
   ("validation_error", "Please check your input and try again"),
   ("required_field", "This field is required"),
   ("invalid_format", "Invalid format. Please check your input"),
   ("websocket_error", "Real-time connection error. Updates may be delayed"),
   ("websocket_closed", "Real-time connection closed. Attempting to reconnect...")]

/-- `ErrorTranslator.translate` applied to an `ApiResponse.error` value
(a string or `None`; the dict/exception branches are unreachable there). -/
def translate (error : Option String) : String :=
  match error with
  | some s => dictGetD ERROR_MESSAGES s "An error occurred"
  | none => "An error occurred"

/-! ## Base API client — src/src/api/base_client.py -/

/-- `ApiResponse` dataclass: payload values consumed by the core are
strings, so `data` is a string dictionary. -/
structure ApiResponse where
  success : Bool
  data : Option StrDict
  error : Option String
  statusCode : Option Nat
deriving Repr, DecidableEq

/-- `AppSettings.TOKEN_REFRESH_THRESHOLD` (settings.py, line 60), seconds. -/
def TOKEN_REFRESH_THRESHOLD : Int := 300

/-- `AuthTokens` dataclass; `expiresAt` is a timestamp in seconds. -/
structure AuthTokens where
  accessToken : String
  refreshToken : String
  expiresAt : Int
deriving Repr, DecidableEq

/-- `AuthTokens.is_expired`, with the observation time `now` explicit. -/
def is_expired (t : AuthTokens) (now : Int) : Bool :=
  now ≥ t.expiresAt

/-- `AuthTokens.needs_refresh`, with the observation time `now` explicit. -/
def needs_refresh (t : AuthTokens) (now : Int) : Bool :=
  now ≥ t.expiresAt - TOKEN_REFRESH_THRESHOLD

/-- `BaseApiClient.is_authenticated`: a token exists and is not expired. -/
def is_authenticated (tokens : Option AuthTokens) (now : Int) : Bool :=
  match tokens with
  | none => false
  | some t => !is_expired t now

/-- `BaseApiClient.set_tokens`: replace the shared token pair, computing
the expiry as `now + expires_in`. -/
def set_tokens (accessToken refreshToken : String) (expiresIn : Int)
    (now : Int) : Option AuthTokens :=
  some ⟨accessToken, refreshToken, now + expiresIn⟩

/-- Result of `BaseApiClient._make_request`: the response, and the number
of network requests issued (0 or 1 at this granularity — the underlying
HTTP retries are inside the transport adapter). -/
structure RequestOut where
  response : ApiResponse
  networkCalls : Nat
deriving Repr, DecidableEq

/-- `BaseApiClient._make_request` (base_client.py, lines 170-270), with the
network's behaviour abstracted as the response `net` the transport would
deliver.  The authentication gate (lines 196-201) fails immediately with a
401-classified response and issues no network call. -/
def make_request (tokens : Option AuthTokens) (now : Int)
    (authenticated : Bool) (net : ApiResponse) : RequestOut :=
  if authenticated && !is_authenticated tokens now then
    ⟨⟨false, none, some "Authentication required", some 401⟩, 0⟩
  else
    ⟨net, 1⟩

/-! ## Auth client refresh — src/src/api/auth_client.py -/

/-- Outcome of `AuthClient.refresh_token`: returned response, token store
afterwards, network calls issued, and which callback lists fired. -/
structure RefreshOut where
  response : ApiResponse
  tokens : Option AuthTokens
  networkCalls : Nat
  refreshFired : Bool
  logoutFired : Bool
deriving Repr, DecidableEq

/-- Python truthiness of an optional dict: `None` and `{}` are falsy. -/
def dictTruthy (d : Option StrDict) : Bool :=
  match d with
  | none => false
  | some l => !l.isEmpty

/-- `AuthClient.refresh_token` (auth_client.py, lines 120-175).  `net` is
the response of the refresh endpoint (reached through `post_public`, which
issues the request unconditionally); `now` is the wall-clock time at which
`set_tokens` would run.  `clear_tokens` fires the logout callbacks. -/
def refresh_token (tokens : Option AuthTokens) (now : Int)
    (net : ApiResponse) : RefreshOut :=
  let storedRefresh : Option String :=
    match tokens with
    | none => none
    | some t => some t.refreshToken
  if !truthy storedRefresh then
    ⟨⟨false, none, some "No refresh token available", none⟩, tokens, 0, false, false⟩
  else
    let refreshTok := storedRefresh.getD ""
    if net.success && dictTruthy net.data then
      let accessTok := dictGet (net.data.getD []) "access"
      if !truthy accessTok then
        ⟨⟨false, none, some "Invalid refresh response: missing access token",
           net.statusCode⟩, tokens, 1, false, false⟩
      else
        ⟨⟨true, some [("message", "Token refreshed")], none, none⟩,
         set_tokens (accessTok.getD "") refreshTok 3600 now, 1, true, false⟩
    else
      -- refresh failed: clear tokens (fires logout callbacks), return response
      ⟨net, none, 1, false, true⟩

/-! ## Verification state — src/src/state/verification_state.py -/

/-- `VerificationState._max_attempts`. -/
def max_attempts : Nat := 5

/-- Signal payload of `verification_completed` (success, message, auth id). -/
structure CompletedEmit where
  ok : Bool
  message : String
  authId : String
deriving Repr, DecidableEq

/-- `VerificationState` fields (`started_at` wall-clock values are not
consumed by any claim and are omitted).  `currentVerification` holds the
`customer_id` and `method` entries of the dict. -/
structure VState where
  currentVerification : Option (String × String)
  status : String
  token : Option String
  authId : Option String
  method : Option String
  attempts : Nat
deriving Repr, DecidableEq

/-- The state built by `VerificationState.__init__` / `_reset_state`. -/
def initVState : VState :=
  ⟨none, "idle", none, none, none, 0⟩

/-- `VerificationState.start_verification`. -/
def start_verification (st : VState) (customerId method : String)
    (token authId : Option String) : VState :=
  { st with
    currentVerification := some (customerId, method)
    status := "in_progress"
    token := token
    authId := authId
    method := some method
    attempts := 0 }

/-- `VerificationState.complete_verification`: no-op (and no signal) when no
verification is in flight; otherwise the transient completed/failed status
is immediately overwritten by `_reset_state` and the
`verification_completed` signal is emitted with the old auth id. -/
def complete_verification (st : VState) (ok : Bool) (message : String) :
    VState × Option CompletedEmit :=
  match st.currentVerification with
  | none => (st, none)
  | some _ => (initVState, some ⟨ok, message, st.authId.getD ""⟩)

/-- `VerificationState.update_status`. -/
def update_status (st : VState) (status : String) : VState :=
  { st with status := status }

/-- `VerificationState.increment_attempts` (state effect). -/
def increment_attempts (st : VState) : VState :=
  { st with attempts := st.attempts + 1 }

/-- `VerificationState.is_max_attempts_reached`. -/
def is_max_attempts_reached (st : VState) : Bool :=
  st.attempts ≥ max_attempts

/-- `VerificationState.is_active`. -/
def is_active (st : VState) : Bool :=
  st.currentVerification.isSome

/-- `VerificationState.get_status`. -/
def get_status (st : VState) : String := st.status

/-- `VerificationState.get_auth_id`. -/
def get_auth_id (st : VState) : Option String := st.authId

/-- `VerificationState.get_attempts`. -/
def get_attempts (st : VState) : Nat := st.attempts

/-! ## Verification client — src/src/api/verification_client.py

Each client method is modelled with the network abstracted as the response
`net` that `self.post` would deliver, together with the count of posts
issued (the authentication gate inside `post` is modelled separately by
`make_request`). -/

/-- `VerificationClient.verify_pin` (local pre-checks, then one post). -/
def client_verify_pin (pin merchantId : String) (net : ApiResponse) :
    ApiResponse × Nat :=
  if pin = "" || pin.length ≠ 6 || !strIsDigit pin then
    (⟨false, none, some "PIN must be 6 digits", none⟩, 0)
  else if merchantId = "" then
    (⟨false, none, some "Merchant ID is required", none⟩, 0)
  else (net, 1)

/-- `VerificationClient.send_email_auth` (local pre-checks, then one post). -/
def client_send_email_auth (email merchantId : String) (net : ApiResponse) :
    ApiResponse × Nat :=
  if email = "" then (⟨false, none, some "Email address is required", none⟩, 0)
  else if merchantId = "" then
    (⟨false, none, some "Merchant ID is required", none⟩, 0)
  else (net, 1)

/-- `VerificationClient.initiate_sms_verification` (no local checks). -/
def client_initiate_sms (net : ApiResponse) : ApiResponse × Nat :=
  (net, 1)

/-- `VerificationClient.confirm_sms_verification` (local pre-check, then
one post). -/
def client_confirm_sms (sessionId code : String) (net : ApiResponse) :
    ApiResponse × Nat :=
  if code = "" || sessionId = "" then
    (⟨false, none, some "session_id and code are required", none⟩, 0)
  else (net, 1)

/-! ## Verification service — src/src/services/verification_service.py -/

/-- `VerificationResult` dataclass (the `data` dict is not consumed by any
claim and is omitted). -/
structure VerificationResult where
  success : Bool
  message : String
  authId : Option String
  sessionId : Option String
deriving Repr, DecidableEq

/-- Outcome of a service operation: its result, the shared verification
state afterwards, the number of network posts issued, and the
`verification_completed` emission if one occurred. -/
structure SvcOut where
  res : VerificationResult
  st : VState
  calls : Nat
  emit : Option CompletedEmit
deriving Repr, DecidableEq

/-- Merchant record as consumed by the service (`merchant_data.get(...)`
fields; values are optional strings, absent keys are `none`). -/
structure Merchant where
  merchantId : Option String
  contactEmail : Option String
  email : Option String
  contactPhone : Option String
  phone : Option String
deriving Repr, DecidableEq

/-- `VerificationService.verify_pin_code` (verification_service.py, lines
114-167).  `merchantId` is optional because the email panel passes its
possibly-`None` `_current_merchant_id`; `net` is the verify-pin endpoint
response. -/
def verify_pin_code (st : VState) (pin : String) (merchantId : Option String)
    (net : ApiResponse) : SvcOut :=
  let v := validate_pin pin
  if !v.1 then ⟨⟨false, v.2, none, none⟩, st, 0, none⟩
  else if !truthy merchantId then
    ⟨⟨false, "Merchant ID is required", none, none⟩, st, 0, none⟩
  else if is_max_attempts_reached st then
    ⟨⟨false, "Maximum verification attempts exceeded", none, none⟩, st, 0, none⟩
  else
    let st1 := increment_attempts st
    let c := client_verify_pin pin (merchantId.getD "") net
    let response := c.1
    if response.success then
      let data := response.data.getD []
      let authId := dictGet data "auth_id"
      let completed := complete_verification st1 true "PIN verified successfully"
      ⟨⟨true, dictGetD data "message" "PIN verified successfully", authId, none⟩,
       completed.1, c.2, completed.2⟩
    else
      let err := translate response.error
      ⟨⟨false, err, none, none⟩, update_status st1 "failed_attempt", c.2, none⟩

/-- `VerificationService.start_email_verification` (lines 56-112). -/
def start_email_verification (st : VState) (merchant : Merchant)
    (net : ApiResponse) : SvcOut :=
  let merchantId := merchant.merchantId
  let email := pyOr merchant.contactEmail merchant.email
  if !truthy merchantId then
    ⟨⟨false, "Merchant ID (UUID) is required", none, none⟩, st, 0, none⟩
  else
    let mid := merchantId.getD ""
    let vm := validate_merchant_id mid
    if !vm.1 then ⟨⟨false, vm.2, none, none⟩, st, 0, none⟩
    else if !truthy email then
      ⟨⟨false, "Merchant email is required", none, none⟩, st, 0, none⟩
    else
      let em := email.getD ""
      let ve := validate_email em
      if !ve.1 then ⟨⟨false, ve.2, none, none⟩, st, 0, none⟩
      else
        let c := client_send_email_auth em mid net
        let response := c.1
        if response.success then
          let data := response.data.getD []
          let authId := dictGet data "auth_id"
          let st2 := start_verification st mid "email" none authId
          ⟨⟨true, dictGetD data "message" "Email verification sent successfully",
             authId, none⟩, st2, c.2, none⟩
        else
          ⟨⟨false, translate response.error, none, none⟩, st, c.2, none⟩

/-- `VerificationService.start_sms_verification` (lines 173-224). -/
def start_sms_verification (st : VState) (merchant : Merchant)
    (net : ApiResponse) : SvcOut :=
  let merchantId := merchant.merchantId
  let phone := pyOr merchant.contactPhone merchant.phone
  if !truthy merchantId then
    ⟨⟨false, "Merchant ID (UUID) is required", none, none⟩, st, 0, none⟩
  else if !truthy phone then
    ⟨⟨false, "Merchant phone is required", none, none⟩, st, 0, none⟩
  else
    let ph := phone.getD ""
    let vp := validate_phone ph
    if !vp.1 then ⟨⟨false, vp.2, none, none⟩, st, 0, none⟩
    else
      let c := client_initiate_sms net
      let response := c.1
      if response.success then
        let data := response.data.getD []
        let sessionId := dictGet data "session_id"
        let st2 := start_verification st (merchantId.getD "") "sms" none sessionId
        ⟨⟨true, dictGetD data "message" "SMS verification sent successfully",
           sessionId, sessionId⟩, st2, c.2, none⟩
      else
        ⟨⟨false, translate response.error, none, none⟩, st, c.2, none⟩

/-- `VerificationService.verify_sms_code` (lines 226-256). -/
def verify_sms_code (st : VState) (code sessionId : String)
    (net : ApiResponse) : SvcOut :=
  if code = "" then
    ⟨⟨false, "Verification code is required", none, none⟩, st, 0, none⟩
  else if sessionId = "" then
    ⟨⟨false, "Session ID is required", none, none⟩, st, 0, none⟩
  else
    let c := client_confirm_sms sessionId code net
    let response := c.1
    if response.success then
      let data := response.data.getD []
      let completed := complete_verification st true "SMS verified"
      ⟨⟨true, dictGetD data "message" "SMS verified successfully",
         some sessionId, none⟩, completed.1, c.2, completed.2⟩
    else
      ⟨⟨false, translate response.error, none, none⟩, st, c.2, none⟩

/-- `VerificationService.cancel_session` (lines 274-278): returns `False`
when nothing is active, otherwise delegates to `complete_verification`. -/
def cancel_session (st : VState) : Bool × VState × Option CompletedEmit :=
  if !is_active st then (false, st, none)
  else
    let completed := complete_verification st false "Cancelled by user"
    (true, completed.1, completed.2)

/-! ## Verification panels — src/src/ui/panels/ -/

/-- Panel workflow states (`State` enum, shared shape in both panels). -/
inductive PState where
  | idle | selected | sending | awaitingCode | verifying | complete | failed
deriving Repr, DecidableEq

/-- `EmailVerificationPanel` workflow fields (widgets, labels and signal
emissions do not feed back into the workflow and are omitted). -/
structure EmailPanel where
  state : PState
  selectedMerchant : Option Merchant
  currentMerchantId : Option String
deriving Repr, DecidableEq

/-- `EmailVerificationPanel._on_pin_verified`: transition to COMPLETE and
clear the merchant selection (the emitted signals carry the auth id but do
not change panel fields). -/
def email_on_pin_verified (p : EmailPanel) : EmailPanel :=
  { p with state := PState.complete, selectedMerchant := none,
           currentMerchantId := none }

/-- `EmailVerificationPanel._on_ws_update` (lines 304-313): keyed on the
message's `status` field and the current panel state only. -/
def email_on_ws_update (p : EmailPanel) (data : StrDict) : EmailPanel :=
  let status := dictGetD data "status" ""
  if status = "verified" || status = "completed" || status = "success" then
    if p.state = PState.awaitingCode then email_on_pin_verified p else p
  else if status = "failed" || status = "expired" then
    if p.state = PState.awaitingCode || p.state = PState.verifying then
      { p with state := PState.failed }
    else p
  else p

/-- `SmsVerificationPanel` workflow fields. -/
structure SmsPanel where
  state : PState
  selectedMerchant : Option Merchant
  sessionId : Option String
deriving Repr, DecidableEq

/-- `SmsVerificationPanel._on_sms_verified`. -/
def sms_on_verified (p : SmsPanel) : SmsPanel :=
  { p with state := PState.complete, selectedMerchant := none,
           sessionId := none }

/-- `SmsVerificationPanel._on_ws_update` (lines 276-284). -/
def sms_on_ws_update (p : SmsPanel) (data : StrDict) : SmsPanel :=
  let status := dictGetD data "status" ""
  if status = "verified" || status = "completed" || status = "success" then
    if p.state = PState.awaitingCode then sms_on_verified p else p
  else if status = "failed" || status = "expired" then
    if p.state = PState.awaitingCode || p.state = PState.verifying then
      { p with state := PState.failed }
    else p
  else p

/-- Email panel combined with the shared verification state. -/
structure EmailSys where
  panel : EmailPanel
  vstate : VState
deriving Repr, DecidableEq

/-- One PIN submission round trip on the email channel:
`_submit_pin` (guard on AWAITING_CODE, transition to VERIFYING, dispatch of
`verify_pin_code`) followed by `_on_verify_result` applied to the delivered
result.  Returns the new system state and the network posts issued. -/
def submit_pin (sys : EmailSys) (pin : String) (net : ApiResponse) :
    EmailSys × Nat :=
  if sys.panel.state ≠ PState.awaitingCode then (sys, 0)
  else
    let p1 := { sys.panel with state := PState.verifying }
    let out := verify_pin_code sys.vstate pin sys.panel.currentMerchantId net
    if out.res.success then
      (⟨email_on_pin_verified p1, out.st⟩, out.calls)
    else
      (⟨{ p1 with state := PState.awaitingCode }, out.st⟩, out.calls)

/-! ## WebSocket manager — src/src/api/websocket_manager.py -/

/-- `WebSocketManager._MAX_RECONNECT_ATTEMPTS`. -/
def MAX_RECONNECT_ATTEMPTS : Nat := 10

/-- `WebSocketManager` connection-control state.  `inFlight` is true while
a `_ws.open` attempt has neither connected nor dropped; `termErrors` is a
ghost counter of emissions of the terminal max-retries error in the current
`connect_user` episode. -/
structure WsState where
  userId : Option Int
  token : Option String
  shouldReconnect : Bool
  reconnectAttempts : Nat
  isConnected : Bool
  inFlight : Bool
  timerPending : Bool
  pingOn : Bool
  termErrors : Nat
deriving Repr, DecidableEq

/-- The state built by `WebSocketManager.__init__`. -/
def wsInit : WsState :=
  ⟨none, none, false, 0, false, false, false, false, 0⟩

/-- Python truthiness of the stored optional user id (`0` is falsy). -/
def truthyInt (o : Option Int) : Bool :=
  match o with
  | none => false
  | some n => n ≠ 0

/-- `WebSocketManager._attempt_connect`: opens the socket only when both
user id and token are truthy. -/
def ws_attempt_connect (st : WsState) : WsState :=
  if truthyInt st.userId && truthy st.token then { st with inFlight := true }
  else st

/-- `WebSocketManager.connect_user`: store credentials, allow reconnects,
reset the attempt counter and try to connect.  Starting a new episode
resets the ghost terminal-error counter. -/
def ws_connect_user (st : WsState) (uid : Int) (tok : String) : WsState :=
  ws_attempt_connect
    { st with userId := some uid, token := some tok, shouldReconnect := true,
              reconnectAttempts := 0, termErrors := 0 }

/-- `WebSocketManager._on_connected`. -/
def ws_on_connected (st : WsState) : WsState :=
  { st with isConnected := true, inFlight := false, reconnectAttempts := 0,
            timerPending := false, pingOn := true }

/-- `WebSocketManager._on_disconnected` (lines 114-129): stop the ping,
then either schedule a reconnect (when allowed and under the cap) or, once
the cap has been reached, emit the terminal error. -/
def ws_on_disconnected (st : WsState) : WsState :=
  let base := { st with isConnected := false, inFlight := false, pingOn := false }
  if base.shouldReconnect && decide (base.reconnectAttempts < MAX_RECONNECT_ATTEMPTS) then
    { base with reconnectAttempts := base.reconnectAttempts + 1,
                timerPending := true }
  else if decide (base.reconnectAttempts ≥ MAX_RECONNECT_ATTEMPTS) then
    { base with termErrors := base.termErrors + 1 }
  else base

/-- The reconnect timer firing (`_reconnect_timer.timeout`): single-shot,
then `_attempt_connect`. -/
def ws_timer_fired (st : WsState) : WsState :=
  ws_attempt_connect { st with timerPending := false }

/-- `WebSocketManager.disconnect_user`: forbid reconnects, stop both
timers, close the socket. -/
def ws_disconnect_user (st : WsState) : WsState :=
  { st with shouldReconnect := false, pingOn := false, timerPending := false,
            isConnected := false }

/-- Events driving the connection-control state machine. -/
inductive WsEvent where
  | connectUser (uid : Int) (tok : String)
  | disconnectUser
  | opened
  | dropped
  | timerFired
deriving Repr, DecidableEq

/-- Labelled step relation of the manager.  `opened` and `dropped` are the
socket resolving an attempt or losing an open connection, so they require a
live socket; `timerFired` requires a pending timer. -/
inductive WsStep : WsState → WsEvent → WsState → Prop where
  | connectUser (st : WsState) (uid : Int) (tok : String) :
      WsStep st (WsEvent.connectUser uid tok) (ws_connect_user st uid tok)
  | disconnectUser (st : WsState) :
      WsStep st WsEvent.disconnectUser (ws_disconnect_user st)
  | opened (st : WsState) (h : st.inFlight = true) :
      WsStep st WsEvent.opened (ws_on_connected st)
  | dropped (st : WsState) (h : st.isConnected || st.inFlight) :
      WsStep st WsEvent.dropped (ws_on_disconnected st)
  | timerFired (st : WsState) (h : st.timerPending = true) :
      WsStep st WsEvent.timerFired (ws_timer_fired st)

/-- States reachable from the freshly constructed manager. -/
inductive WsReachable : WsState → Prop where
  | init : WsReachable wsInit
  | step {st st' : WsState} {e : WsEvent} :
      WsReachable st → WsStep st e st' → WsReachable st'

/-! ## Task dispatcher — src/src/utils/threading_utils.py -/

/-- Behaviour of the wrapped operation: it returns a value or raises a
fault carrying a message (`str(exc)`). -/
inductive OpOutcome (α : Type) where
  | ok (v : α)
  | raised (msg : String)
deriving Repr, DecidableEq

/-- Signals emitted by `ApiWorker` in emission order. -/
inductive WorkerEvent (α : Type) where
  | result (v : α)
  | error (msg : String)
  | finished
deriving Repr, DecidableEq

/-- `ApiWorker.run` (threading_utils.py, lines 43-51) as the ordered list
of signal emissions.  Totality of this function is the embedding of the
guarantee that a fault never propagates out of `run`. -/
def worker_run {α : Type} (o : OpOutcome α) : List (WorkerEvent α) :=
  match o with
  | OpOutcome.ok v => [WorkerEvent.result v, WorkerEvent.finished]
  | OpOutcome.raised m => [WorkerEvent.error m, WorkerEvent.finished]

/-- Is an emission a result-or-error outcome (as opposed to the completion
notice)? -/
def isOutcomeEvent {α : Type} : WorkerEvent α → Bool
  | WorkerEvent.result _ => true
  | WorkerEvent.error _ => true
  | WorkerEvent.finished => false

/-! ## Step relation over the shared verification state

The only mutators of `verification_state` in the repository are the five
public operations of `VerificationService` (grep: `start_verification`,
`increment_attempts`, `complete_verification`, `update_status` appear only
inside verification_service.py); a step is one such call with arbitrary
arguments and network behaviour. -/

/-- One service call acting on the shared verification state. -/
inductive VStep : VState → VState → Prop where
  | startEmail (st : VState) (m : Merchant) (net : ApiResponse) :
      VStep st (start_email_verification st m net).st
  | verifyPin (st : VState) (pin : String) (mid : Option String)
      (net : ApiResponse) :
      VStep st (verify_pin_code st pin mid net).st
  | startSms (st : VState) (m : Merchant) (net : ApiResponse) :
      VStep st (start_sms_verification st m net).st
  | verifySms (st : VState) (code sid : String) (net : ApiResponse) :
      VStep st (verify_sms_code st code sid net).st
  | cancel (st : VState) :
      VStep st (cancel_session st).2.1

/-- Verification states reachable from the freshly constructed state. -/
inductive VReachable : VState → Prop where
  | init : VReachable initVState
  | step {st st' : VState} : VReachable st → VStep st st' → VReachable st'

/-- Inductive invariant of the WebSocket manager: the attempt counter is
capped, the terminal error fires at most once per episode, after it fires
nothing is scheduled or live, and whenever the socket is live with the
counter at the cap no reconnect timer is pending. -/
def wsInv (st : WsState) : Prop :=
  st.reconnectAttempts ≤ MAX_RECONNECT_ATTEMPTS ∧
  st.termErrors ≤ 1 ∧
  (st.termErrors = 1 →
    st.timerPending = false ∧ st.inFlight = false ∧ st.isConnected = false) ∧
  ((st.isConnected || st.inFlight) = true →
    MAX_RECONNECT_ATTEMPTS ≤ st.reconnectAttempts → st.timerPending = false)

/-- The panel state computed by `_on_ws_update` as a function of the
message's `status` field and the previous state alone. -/
def ws_status_next (status : String) (s : PState) : PState :=
  if status = "verified" || status = "completed" || status = "success" then
    (if s = PState.awaitingCode then PState.complete else s)
  else if status = "failed" || status = "expired" then
    (if s = PState.awaitingCode || s = PState.verifying then PState.failed else s)
  else s

/-- Concrete merchant record used by the counterexample fixtures. -/
def merchantFix : Merchant :=
  ⟨some "m-1", some "a@example.com", none, some "+12025550100", none⟩

/-- Email panel awaiting a PIN for merchant `m-1`. -/
def panelAwaiting : EmailPanel :=
  ⟨PState.awaitingCode, some merchantFix, some "m-1"⟩

/-- Verification session whose server-assigned identifier is `A`. -/
def vstateAuthA : VState :=
  start_verification initVState "m-1" "email" none (some "A")

/-- Realtime success message whose embedded identifier `B` does not match
the session identifier `A`. -/
def wsMsgMismatch : StrDict :=
  [("type", "verification_update"), ("status", "verified"), ("auth_id", "B")]

/-- Email system right after a successful send: panel awaiting the code,
fresh session with server-assigned identifier `A1`. -/
def c3Sys0 : EmailSys :=
  ⟨⟨PState.awaitingCode, some merchantFix, some "m-1"⟩,
   start_verification initVState "m-1" "email" none (some "A1")⟩

/-- A wrong-PIN rejection from the verify endpoint. -/
def wrongPinNet : ApiResponse :=
  ⟨false, none, some "invalid_pin", some 400⟩

/-- `n` consecutive submissions of the (wrong) PIN `111111` starting from
`c3Sys0`, each one answered by the verify endpoint with `net`. -/
def c3RunWith (net : ApiResponse) : Nat → EmailSys
  | 0 => c3Sys0
  | n + 1 => (submit_pin (c3RunWith net n) "111111" net).1

/-- The concrete run in which every submission is rejected as a wrong PIN. -/
def c3Run (n : Nat) : EmailSys :=
  c3RunWith wrongPinNet n

/-- Concrete manager run: `connect_user(1, "t")` followed by `n` rounds of
a failed attempt (`dropped`) and the reconnect timer firing. -/
def wsSpun : Nat → WsState
  | 0 => ws_connect_user wsInit 1 "t"
  | n + 1 => ws_timer_fired (ws_on_disconnected (wsSpun n))

/-! ## Theorems -/

/-- C4: for every token `T` and observation time `now`, `needs_refresh` is
true iff `now ≥ T.expiresAt − 300` seconds, and `is_expired` is true iff
`now ≥ T.expiresAt`. -/
theorem c4_token_refresh_expiry_iff (t : AuthTokens) (now : Int) :
    (needs_refresh t now = true ↔ now ≥ t.expiresAt - 300) ∧
    (is_expired t now = true ↔ now ≥ t.expiresAt) := by
  constructor <;> simp [needs_refresh, is_expired, TOKEN_REFRESH_THRESHOLD]

/-- C6: an authenticated request with no stored token, or whose stored
token is expired at call time, returns a failure classified with status
401 immediately, and no network call is issued. -/
theorem c6_unauthenticated_no_network (tokens : Option AuthTokens)
    (now : Int) (net : ApiResponse)
    (h : tokens = none ∨ ∃ t, tokens = some t ∧ is_expired t now = true) :
    make_request tokens now true net =
      ⟨⟨false, none, some "Authentication required", some 401⟩, 0⟩ := by
  have hauth : is_authenticated tokens now = false := by
    rcases h with h | ⟨t, ht, hexp⟩
    · simp [is_authenticated, h]
    · simp [is_authenticated, ht, hexp]
  simp [make_request, hauth]

/-- Witness for C6 at a token expired exactly at the call time. -/
theorem c6_unauthenticated_no_network_witness :
    make_request (some ⟨"a", "r", 100⟩) 100 true ⟨true, none, none, some 200⟩ =
      ⟨⟨false, none, some "Authentication required", some 401⟩, 0⟩ :=
  c6_unauthenticated_no_network _ _ _ (Or.inr ⟨_, rfl, by decide⟩)

/-- C9: for every dispatched task outcome, `ApiWorker.run` emits exactly
one result-or-error outcome, that outcome precedes the completion notice,
a returning operation delivers its result, and a raising operation has the
fault caught and converted into an error outcome (totality of
`worker_run` embeds that the fault never propagates out of the worker). -/
theorem c9_worker_exactly_one_outcome {α : Type} (o : OpOutcome α) :
    (∃ e, worker_run o = [e, WorkerEvent.finished] ∧ isOutcomeEvent e = true) ∧
    ((worker_run o).filter isOutcomeEvent).length = 1 ∧
    (∀ v, o = OpOutcome.ok v →
      worker_run o = [WorkerEvent.result v, WorkerEvent.finished]) ∧
    (∀ m, o = OpOutcome.raised m →
      worker_run o = [WorkerEvent.error m, WorkerEvent.finished]) := by
  cases o with
  | ok v =>
      refine ⟨⟨WorkerEvent.result v, rfl, rfl⟩, ?_, ?_, ?_⟩
      · simp [worker_run, isOutcomeEvent]
      · intro w hw; cases hw; rfl
      · intro m hm; cases hm
  | raised m =>
      refine ⟨⟨WorkerEvent.error m, rfl, rfl⟩, ?_, ?_, ?_⟩
      · simp [worker_run, isOutcomeEvent]
      · intro w hw; cases hw
      · intro m2 hm; cases hm; rfl

/-- Witness for C9 on a returning and on a raising operation. -/
theorem c9_worker_exactly_one_outcome_witness :
    worker_run (OpOutcome.ok (37 : Nat)) =
      [WorkerEvent.result 37, WorkerEvent.finished] ∧
    worker_run (OpOutcome.raised "boom" : OpOutcome Nat) =
      [WorkerEvent.error "boom", WorkerEvent.finished] :=
  ⟨(c9_worker_exactly_one_outcome (OpOutcome.ok 37)).2.2.1 37 rfl,
   (c9_worker_exactly_one_outcome (OpOutcome.raised "boom" : OpOutcome Nat)).2.2.2
     "boom" rfl⟩

/-- C10: `complete_verification` (and `cancel_session`, which delegates to
it) is a no-op with no signal emission when no verification is active;
when one is active it resets the state so that `is_active` is false,
`get_attempts` is 0, `get_auth_id` is `None` and `get_status` is `idle`
(and the completion signal is emitted). -/
theorem c10_complete_cancel_reset :
    (∀ st ok msg, is_active st = false →
      complete_verification st ok msg = (st, none)) ∧
    (∀ st ok msg, is_active st = true →
      is_active (complete_verification st ok msg).1 = false ∧
      get_attempts (complete_verification st ok msg).1 = 0 ∧
      get_auth_id (complete_verification st ok msg).1 = none ∧
      get_status (complete_verification st ok msg).1 = "idle" ∧
      (complete_verification st ok msg).2.isSome = true) ∧
    (∀ st, is_active st = false → cancel_session st = (false, st, none)) ∧
    (∀ st, is_active st = true →
      (cancel_session st).1 = true ∧
      is_active (cancel_session st).2.1 = false ∧
      get_attempts (cancel_session st).2.1 = 0 ∧
      get_auth_id (cancel_session st).2.1 = none ∧
      get_status (cancel_session st).2.1 = "idle") := by
  refine ⟨?_, ?_, ?_, ?_⟩
  · intro st ok msg h
    cases hc : st.currentVerification <;>
      simp [is_active, hc, complete_verification]
    · simp [is_active, hc] at h
  · intro st ok msg h
    cases hc : st.currentVerification
    · simp [is_active, hc] at h
    · simp [is_active, complete_verification, hc, initVState, get_attempts,
            get_auth_id, get_status]
  · intro st h
    simp [cancel_session, h]
  · intro st h
    cases hc : st.currentVerification
    · simp [is_active, hc] at h
    · simp [cancel_session, h, is_active, complete_verification, hc,
            initVState, get_attempts, get_auth_id, get_status]

/-- Witness for C10 on an inactive and on an active verification state. -/
theorem c10_complete_cancel_reset_witness :
    complete_verification initVState true "m" = (initVState, none) ∧
    is_active (complete_verification
      (start_verification initVState "c" "email" none (some "x")) true "ok").1
        = false ∧
    cancel_session initVState = (false, initVState, none) :=
  ⟨c10_complete_cancel_reset.1 initVState true "m" (by decide),
   ((c10_complete_cancel_reset.2.1
      (start_verification initVState "c" "email" none (some "x")) true "ok")
      (by decide)).1,
   c10_complete_cancel_reset.2.2.1 initVState (by decide)⟩

/-- C8: every input that fails the local validation gate — a PIN rejected
by `validate_pin`, a merchant id rejected by `validate_merchant_id`, or a
contact address rejected by `validate_email` / `validate_phone` — makes
the verification operation return an immediate local failure carrying the
validator's message, with no network call and the whole verification
state (in particular the attempts counter) unchanged. -/
theorem c8_validation_gate_local :
    (∀ st pin mid net, (validate_pin pin).1 = false →
      verify_pin_code st pin mid net =
        ⟨⟨false, (validate_pin pin).2, none, none⟩, st, 0, none⟩) ∧
    (∀ st m net, truthy m.merchantId = true →
      (validate_merchant_id (m.merchantId.getD "")).1 = false →
      start_email_verification st m net =
        ⟨⟨false, (validate_merchant_id (m.merchantId.getD "")).2, none, none⟩,
         st, 0, none⟩) ∧
    (∀ st m net, truthy m.merchantId = true →
      (validate_merchant_id (m.merchantId.getD "")).1 = true →
      truthy (pyOr m.contactEmail m.email) = true →
      (validate_email ((pyOr m.contactEmail m.email).getD "")).1 = false →
      start_email_verification st m net =
        ⟨⟨false, (validate_email ((pyOr m.contactEmail m.email).getD "")).2,
           none, none⟩, st, 0, none⟩) ∧
    (∀ st m net, truthy m.merchantId = true →
      truthy (pyOr m.contactPhone m.phone) = true →
      (validate_phone ((pyOr m.contactPhone m.phone).getD "")).1 = false →
      start_sms_verification st m net =
        ⟨⟨false, (validate_phone ((pyOr m.contactPhone m.phone).getD "")).2,
           none, none⟩, st, 0, none⟩) := by
  refine ⟨?_, ?_, ?_, ?_⟩
  · intro st pin mid net h
    simp [verify_pin_code, h]
  · intro st m net hmid h
    simp [start_email_verification, hmid, h]
  · intro st m net hmid hvm hem h
    simp [start_email_verification, hmid, hvm, hem, h]
  · intro st m net hmid hph h
    simp [start_sms_verification, hmid, hph, h]

/-- Witness for C8: a non-numeric PIN, a non-positive merchant id, a
malformed email and a too-short phone number each fail locally with no
network call and no state change. -/
theorem c8_validation_gate_local_witness :
    verify_pin_code initVState "12ab56" (some "m-1") ⟨true, none, none, none⟩ =
      ⟨⟨false, "PIN must contain only digits", none, none⟩, initVState, 0, none⟩ ∧
    start_email_verification initVState
        ⟨some "-5", some "a@example.com", none, none, none⟩
        ⟨true, none, none, none⟩ =
      ⟨⟨false, "Merchant ID must be a positive number", none, none⟩,
       initVState, 0, none⟩ ∧
    start_email_verification initVState
        ⟨some "m-1", some "bad-address", none, none, none⟩
        ⟨true, none, none, none⟩ =
      ⟨⟨false, "Invalid email address format", none, none⟩, initVState, 0, none⟩ ∧
    start_sms_verification initVState
        ⟨some "m-1", none, none, some "12345", none⟩
        ⟨true, none, none, none⟩ =
      ⟨⟨false, "Invalid phone number format (10-15 digits required)", none,
         none⟩, initVState, 0, none⟩ :=
  ⟨c8_validation_gate_local.1 initVState "12ab56" (some "m-1") _ (by decide),
   c8_validation_gate_local.2.1 initVState _ _ (by decide) (by decide),
   c8_validation_gate_local.2.2.1 initVState _ _ (by decide) (by decide)
     (by decide) (by decide),
   c8_validation_gate_local.2.2.2 initVState _ _ (by decide) (by decide)
     (by decide)⟩

/-- `complete_verification` leaves the attempts counter alone or zeroes it. -/
theorem complete_verification_attempts (st : VState) (ok : Bool) (msg : String) :
    (complete_verification st ok msg).1.attempts = st.attempts ∨
    (complete_verification st ok msg).1.attempts = 0 := by
  cases hc : st.currentVerification <;>
    simp [complete_verification, hc, initVState]

/-- `verify_pin_code` leaves the counter alone, increments it only below
the budget, or zeroes it on completion. -/
theorem verify_pin_code_attempts (st : VState) (pin : String)
    (mid : Option String) (net : ApiResponse) :
    (verify_pin_code st pin mid net).st.attempts = st.attempts ∨
    ((verify_pin_code st pin mid net).st.attempts = st.attempts + 1 ∧
      st.attempts < max_attempts) ∨
    (verify_pin_code st pin mid net).st.attempts = 0 := by
  simp only [verify_pin_code]
  split
  · left; rfl
  · split
    · left; rfl
    · split
      · left; rfl
      · rename_i hmax
        have hlt : st.attempts < max_attempts := by
          simp [is_max_attempts_reached] at hmax
          omega
        split
        · rcases complete_verification_attempts (increment_attempts st) true
            "PIN verified successfully" with h | h
          · right; left
            refine ⟨?_, hlt⟩
            simpa [increment_attempts] using h
          · right; right; exact h
        · right; left
          exact ⟨by simp [update_status, increment_attempts], hlt⟩

/-- `start_email_verification` resets or preserves the counter. -/
theorem start_email_attempts (st : VState) (m : Merchant) (net : ApiResponse) :
    (start_email_verification st m net).st.attempts = st.attempts ∨
    (start_email_verification st m net).st.attempts = 0 := by
  simp only [start_email_verification]
  split
  · left; rfl
  · split
    · left; rfl
    · split
      · left; rfl
      · split
        · left; rfl
        · split
          · right; simp [start_verification]
          · left; rfl

/-- `start_sms_verification` resets or preserves the counter. -/
theorem start_sms_attempts (st : VState) (m : Merchant) (net : ApiResponse) :
    (start_sms_verification st m net).st.attempts = st.attempts ∨
    (start_sms_verification st m net).st.attempts = 0 := by
  simp only [start_sms_verification]
  split
  · left; rfl
  · split
    · left; rfl
    · split
      · left; rfl
      · split
        · right; simp [start_verification]
        · left; rfl

/-- `verify_sms_code` resets or preserves the counter. -/
theorem verify_sms_attempts (st : VState) (code sid : String)
    (net : ApiResponse) :
    (verify_sms_code st code sid net).st.attempts = st.attempts ∨
    (verify_sms_code st code sid net).st.attempts = 0 := by
  simp only [verify_sms_code]
  split
  · left; rfl
  · split
    · left; rfl
    · split
      · exact complete_verification_attempts st true "SMS verified"
      · left; rfl

/-- `cancel_session` resets or preserves the counter. -/
theorem cancel_session_attempts (st : VState) :
    (cancel_session st).2.1.attempts = st.attempts ∨
    (cancel_session st).2.1.attempts = 0 := by
  simp only [cancel_session]
  split
  · left; rfl
  · exact complete_verification_attempts st false "Cancelled by user"

/-- Every service step keeps the attempts counter within the budget. -/
theorem vstep_attempts_le {st st' : VState} (h : VStep st st')
    (hle : st.attempts ≤ max_attempts) : st'.attempts ≤ max_attempts := by
  cases h with
  | startEmail m net =>
      rcases start_email_attempts st m net with h | h <;> omega
  | verifyPin pin mid net =>
      rcases verify_pin_code_attempts st pin mid net with h | ⟨h, hlt⟩ | h <;> omega
  | startSms m net =>
      rcases start_sms_attempts st m net with h | h <;> omega
  | verifySms code sid net =>
      rcases verify_sms_attempts st code sid net with h | h <;> omega
  | cancel =>
      rcases cancel_session_attempts st with h | h <;> omega

/-- With the attempt budget exhausted, `verify_pin_code` issues no network
call, fails, and leaves the state untouched, for every input. -/
theorem verify_pin_code_maxed (st : VState) (pin : String)
    (mid : Option String) (net : ApiResponse)
    (hmax : is_max_attempts_reached st = true) :
    (verify_pin_code st pin mid net).calls = 0 ∧
    (verify_pin_code st pin mid net).res.success = false ∧
    (verify_pin_code st pin mid net).st = st := by
  simp only [verify_pin_code]
  split
  · exact ⟨rfl, rfl, rfl⟩
  · split
    · exact ⟨rfl, rfl, rfl⟩
    · exact ⟨rfl, rfl, rfl⟩

/-- With the budget exhausted and the earlier local checks passing, the
rejection carries the maximum-attempts message. -/
theorem verify_pin_code_maxed_result (st : VState) (pin : String)
    (mid : Option String) (net : ApiResponse)
    (hmax : is_max_attempts_reached st = true)
    (hpin : (validate_pin pin).1 = true) (hmid : truthy mid = true) :
    verify_pin_code st pin mid net =
      ⟨⟨false, "Maximum verification attempts exceeded", none, none⟩,
       st, 0, none⟩ := by
  simp [verify_pin_code, hpin, hmid, hmax]

/-- C1: on every reachable verification state the attempts counter never
exceeds `maxAttempts` (5); once the budget is exhausted a further PIN
submission is rejected locally by `verify_pin_code` — no network call is
issued for any input, and a submission passing the earlier local checks
fails with the maximum-attempts message, leaving the state untouched. -/
theorem c1_attempts_budget :
    (∀ st, VReachable st → get_attempts st ≤ max_attempts) ∧
    (∀ st pin mid net, is_max_attempts_reached st = true →
      (verify_pin_code st pin mid net).calls = 0 ∧
      (verify_pin_code st pin mid net).res.success = false ∧
      (verify_pin_code st pin mid net).st = st) ∧
    (∀ st pin mid net, is_max_attempts_reached st = true →
      (validate_pin pin).1 = true → truthy mid = true →
      verify_pin_code st pin mid net =
        ⟨⟨false, "Maximum verification attempts exceeded", none, none⟩,
         st, 0, none⟩) := by
  refine ⟨?_, ?_, ?_⟩
  · intro st h
    induction h with
    | init => simp [get_attempts, initVState, max_attempts]
    | step _ hstep ih => exact vstep_attempts_le hstep ih
  · intro st pin mid net hmax
    exact verify_pin_code_maxed st pin mid net hmax
  · intro st pin mid net hmax hpin hmid
    exact verify_pin_code_maxed_result st pin mid net hmax hpin hmid

/-- Witness for C1: the initial state is reachable and within budget, and
with the budget exhausted a valid six-digit PIN is rejected locally with
the maximum-attempts message and no network call. -/
theorem c1_attempts_budget_witness :
    get_attempts initVState ≤ max_attempts ∧
    verify_pin_code ⟨some ("c", "email"), "in_progress", none, some "A",
        some "email", 5⟩ "123456" (some "m-1") ⟨true, none, none, none⟩ =
      ⟨⟨false, "Maximum verification attempts exceeded", none, none⟩,
       ⟨some ("c", "email"), "in_progress", none, some "A", some "email", 5⟩,
       0, none⟩ :=
  ⟨c1_attempts_budget.1 initVState VReachable.init,
   c1_attempts_budget.2.2 _ "123456" (some "m-1") _ (by decide) (by decide)
     (by decide)⟩

/-- C5: `refresh_token` with no stored refresh token fails with the
no-refresh-token error and no network call; when the refresh endpoint
succeeds (delivering an access token) it stores a pair reusing the same
refresh token with only the access token replaced and fires the
refresh-succeeded callbacks; when the refresh call fails it clears the
stored tokens, fires the logout callbacks, and returns the failure. -/
theorem c5_refresh_token_lifecycle :
    (∀ tokens now net,
      (tokens = none ∨ ∃ t, tokens = some t ∧ t.refreshToken = "") →
      refresh_token tokens now net =
        ⟨⟨false, none, some "No refresh token available", none⟩,
         tokens, 0, false, false⟩) ∧
    (∀ t now net d access, t.refreshToken ≠ "" →
      net.success = true → net.data = some d → d ≠ [] →
      dictGet d "access" = some access → access ≠ "" →
      (refresh_token (some t) now net).tokens =
          some ⟨access, t.refreshToken, now + 3600⟩ ∧
      (refresh_token (some t) now net).response.success = true ∧
      (refresh_token (some t) now net).refreshFired = true ∧
      (refresh_token (some t) now net).logoutFired = false ∧
      (refresh_token (some t) now net).networkCalls = 1) ∧
    (∀ t now net, t.refreshToken ≠ "" → net.success = false →
      refresh_token (some t) now net = ⟨net, none, 1, false, true⟩) := by
  refine ⟨?_, ?_, ?_⟩
  · intro tokens now net h
    rcases h with h | ⟨t, ht, hrt⟩
    · simp [refresh_token, h, truthy]
    · simp [refresh_token, ht, hrt, truthy]
  · intro t now net d access hrt hs hd hne ha hane
    simp [refresh_token, truthy, hrt, hs, hd, hne, ha, hane, dictTruthy,
          set_tokens]
  · intro t now net hrt hs
    simp [refresh_token, truthy, hrt, hs]

/-- Witness for C5 on the three branches at concrete inputs. -/
theorem c5_refresh_token_lifecycle_witness :
    refresh_token none 0 ⟨true, some [("access", "na")], none, some 200⟩ =
      ⟨⟨false, none, some "No refresh token available", none⟩,
       none, 0, false, false⟩ ∧
    (refresh_token (some ⟨"oldA", "R", 50⟩) 1000
        ⟨true, some [("access", "newA")], none, some 200⟩).tokens =
      some ⟨"newA", "R", 4600⟩ ∧
    (refresh_token (some ⟨"oldA", "R", 50⟩) 1000
        ⟨true, some [("access", "newA")], none, some 200⟩).refreshFired = true ∧
    refresh_token (some ⟨"oldA", "R", 50⟩) 1000
        ⟨false, none, some "server_error", some 500⟩ =
      ⟨⟨false, none, some "server_error", some 500⟩, none, 1, false, true⟩ :=
  ⟨c5_refresh_token_lifecycle.1 none 0 _ (Or.inl rfl),
   (c5_refresh_token_lifecycle.2.1 ⟨"oldA", "R", 50⟩ 1000 _
      [("access", "newA")] "newA" (by decide) rfl rfl (by decide) (by decide)
      (by decide)).1,
   (c5_refresh_token_lifecycle.2.1 ⟨"oldA", "R", 50⟩ 1000 _
      [("access", "newA")] "newA" (by decide) rfl rfl (by decide) (by decide)
      (by decide)).2.2.1,
   c5_refresh_token_lifecycle.2.2 ⟨"oldA", "R", 50⟩ 1000 _ (by decide) rfl⟩

/-- The email panel state after a realtime update is a function of the
message's `status` field and the previous state alone. -/
theorem email_ws_update_state (p : EmailPanel) (d : StrDict) :
    (email_on_ws_update p d).state =
      ws_status_next (dictGetD d "status" "") p.state := by
  simp only [email_on_ws_update, ws_status_next, email_on_pin_verified]
  split_ifs <;> rfl

/-- The SMS panel state after a realtime update is a function of the
message's `status` field and the previous state alone. -/
theorem sms_ws_update_state (p : SmsPanel) (d : StrDict) :
    (sms_on_ws_update p d).state =
      ws_status_next (dictGetD d "status" "") p.state := by
  simp only [sms_on_ws_update, ws_status_next, sms_on_verified]
  split_ifs <;> rfl

/-- Counterexample to C2: while the email panel awaits a code for the
session whose server-assigned identifier is `A`, a realtime message whose
embedded `auth_id` is `B` (non-matching) and whose status is `verified`
does cause a transition — the panel jumps to COMPLETE and clears its
merchant fields; the handler never consults the identifier. -/
theorem c2_counterexample :
    get_auth_id vstateAuthA = some "A" ∧
    dictGet wsMsgMismatch "auth_id" = some "B" ∧
    dictGet wsMsgMismatch "auth_id" ≠ get_auth_id vstateAuthA ∧
    panelAwaiting.state = PState.awaitingCode ∧
    email_on_ws_update panelAwaiting wsMsgMismatch ≠ panelAwaiting ∧
    (email_on_ws_update panelAwaiting wsMsgMismatch).state = PState.complete := by
  decide

/-- C2 (amended): the WebSocket-update handlers ignore the embedded
identifier entirely.  A realtime message whose `status` is not one of the
recognised keywords causes no state transition (panel unchanged, matching
identifier or not); and for every message the resulting panel state
depends only on the `status` field and the previous panel state, never on
the `auth_id` / `session_id` it references. -/
theorem c2_ws_update_keyed_on_status_only :
    (∀ (p : EmailPanel) (d : StrDict),
      dictGetD d "status" "" ≠ "verified" →
      dictGetD d "status" "" ≠ "completed" →
      dictGetD d "status" "" ≠ "success" →
      dictGetD d "status" "" ≠ "failed" →
      dictGetD d "status" "" ≠ "expired" →
      email_on_ws_update p d = p) ∧
    (∀ (p : SmsPanel) (d : StrDict),
      dictGetD d "status" "" ≠ "verified" →
      dictGetD d "status" "" ≠ "completed" →
      dictGetD d "status" "" ≠ "success" →
      dictGetD d "status" "" ≠ "failed" →
      dictGetD d "status" "" ≠ "expired" →
      sms_on_ws_update p d = p) ∧
    (∀ (p : EmailPanel) (d1 d2 : StrDict),
      dictGetD d1 "status" "" = dictGetD d2 "status" "" →
      (email_on_ws_update p d1).state = (email_on_ws_update p d2).state) ∧
    (∀ (p : SmsPanel) (d1 d2 : StrDict),
      dictGetD d1 "status" "" = dictGetD d2 "status" "" →
      (sms_on_ws_update p d1).state = (sms_on_ws_update p d2).state) := by
  refine ⟨?_, ?_, ?_, ?_⟩
  · intro p d h1 h2 h3 h4 h5
    simp [email_on_ws_update, h1, h2, h3, h4, h5]
  · intro p d h1 h2 h3 h4 h5
    simp [sms_on_ws_update, h1, h2, h3, h4, h5]
  · intro p d1 d2 h
    rw [email_ws_update_state, email_ws_update_state, h]
  · intro p d1 d2 h
    rw [sms_ws_update_state, sms_ws_update_state, h]

/-- Witness for the amended C2: an unrecognised status leaves the panel
unchanged, and two messages differing only in their identifiers produce
the same panel state. -/
theorem c2_ws_update_keyed_on_status_only_witness :
    email_on_ws_update panelAwaiting
        [("status", "pending"), ("auth_id", "B")] = panelAwaiting ∧
    (email_on_ws_update panelAwaiting
        [("status", "verified"), ("auth_id", "A")]).state =
      (email_on_ws_update panelAwaiting
        [("status", "verified"), ("auth_id", "B")]).state :=
  ⟨c2_ws_update_keyed_on_status_only.1 panelAwaiting _ (by decide) (by decide)
     (by decide) (by decide) (by decide),
   c2_ws_update_keyed_on_status_only.2.2.1 panelAwaiting _ _ (by decide)⟩

/-- `client_verify_pin` reaches the network once when its local
pre-checks pass. -/
theorem client_verify_pin_posts (pin mid : String) (net : ApiResponse)
    (h1 : pin ≠ "") (h2 : pin.length = 6) (h3 : strIsDigit pin = true)
    (h4 : mid ≠ "") : client_verify_pin pin mid net = (net, 1) := by
  simp [client_verify_pin, h1, h2, h3, h4]

/-- One rejected submission of the six-digit PIN `111111` keeps the panel
in AWAITING_CODE (after passing through VERIFYING), preserves the merchant
fields, charges one attempt with status `failed_attempt`, and issued one
network call. -/
theorem submit_wrong_pin_step (sys : EmailSys) (net : ApiResponse)
    (hstate : sys.panel.state = PState.awaitingCode)
    (hnet : net.success = false)
    (hmid : truthy sys.panel.currentMerchantId = true)
    (hatt : is_max_attempts_reached sys.vstate = false) :
    (submit_pin sys "111111" net).1.panel.state = PState.awaitingCode ∧
    (submit_pin sys "111111" net).1.panel.currentMerchantId =
      sys.panel.currentMerchantId ∧
    (submit_pin sys "111111" net).1.panel.selectedMerchant =
      sys.panel.selectedMerchant ∧
    (submit_pin sys "111111" net).1.vstate =
      update_status (increment_attempts sys.vstate) "failed_attempt" ∧
    (submit_pin sys "111111" net).2 = 1 := by
  have hpin : validate_pin "111111" = (true, "") := by decide
  have hmid2 : sys.panel.currentMerchantId.getD "" ≠ "" := by
    cases hc : sys.panel.currentMerchantId with
    | none => simp [truthy, hc] at hmid
    | some s => simpa [truthy, hc] using hmid
  have hclient := client_verify_pin_posts "111111"
    (sys.panel.currentMerchantId.getD "") net (by decide) (by decide)
    (by decide) hmid2
  simp [submit_pin, hstate, verify_pin_code, hpin, hmid, hatt, hclient, hnet]

/-- Invariant of the five-wrong-submissions run: after `n ≤ 5` rejected
submissions the panel is back in AWAITING_CODE, the merchant selection is
intact, `n` attempts are charged, and from the first rejection on the
shared status is `failed_attempt`. -/
theorem c3_run_invariant (net : ApiResponse) (hnet : net.success = false) :
    ∀ n, n ≤ 5 →
      (c3RunWith net n).panel.state = PState.awaitingCode ∧
      (c3RunWith net n).panel.currentMerchantId = some "m-1" ∧
      (c3RunWith net n).panel.selectedMerchant = some merchantFix ∧
      (c3RunWith net n).vstate.attempts = n ∧
      (c3RunWith net n).vstate.status =
        (if n = 0 then "in_progress" else "failed_attempt") := by
  intro n
  induction n with
  | zero =>
      intro _
      exact ⟨rfl, rfl, rfl, rfl, rfl⟩
  | succ k ih =>
      intro hk
      obtain ⟨h1, h2, h3, h4, h5⟩ := ih (by omega)
      have hmax : is_max_attempts_reached (c3RunWith net k).vstate = false := by
        simp [is_max_attempts_reached, h4, max_attempts]
        omega
      obtain ⟨s1, s2, s3, s4, s5⟩ :=
        submit_wrong_pin_step (c3RunWith net k) net h1 hnet
          (by simp [h2, truthy]) hmax
      have hunf : c3RunWith net (k + 1) =
          (submit_pin (c3RunWith net k) "111111" net).1 := rfl
      refine ⟨by rw [hunf]; exact s1, by rw [hunf, s2]; exact h2,
              by rw [hunf, s3]; exact h3, ?_, ?_⟩
      · rw [hunf, s4]
        simp [update_status, increment_attempts, h4]
      · rw [hunf, s4]
        simp [update_status]

/-- Counterexample to C3: after five consecutive wrong-PIN submissions
from a fresh email verification session, the workflow state is back in
AWAITING_CODE with shared status `failed_attempt` — it has not become
FAILED on the 5th rejection. -/
theorem c3_counterexample :
    (c3Run 5).panel.state = PState.awaitingCode ∧
    (c3Run 5).panel.state ≠ PState.failed ∧
    get_status (c3Run 5).vstate ≠ "failed" ∧
    get_status (c3Run 5).vstate = "failed_attempt" ∧
    get_attempts (c3Run 5).vstate = 5 := by
  decide

/-- C3 (amended): on the email channel, five wrong-PIN submissions in a
row from a fresh session charge all five attempts, and on each rejection —
including the 5th — the panel returns to AWAITING_CODE with the shared
status `failed_attempt` (the FAILED state is reached only via a realtime
failure message); a 6th submit issues no network call and is rejected
locally with the maximum-attempts message. -/
theorem c3_five_wrong_pins_no_sixth_call (net net2 : ApiResponse)
    (hnet : net.success = false) :
    (c3RunWith net 5).panel.state = PState.awaitingCode ∧
    get_status (c3RunWith net 5).vstate = "failed_attempt" ∧
    get_attempts (c3RunWith net 5).vstate = 5 ∧
    (∀ pin, (submit_pin (c3RunWith net 5) pin net2).2 = 0) ∧
    (verify_pin_code (c3RunWith net 5).vstate "111111" (some "m-1")
        net2).res.message = "Maximum verification attempts exceeded" := by
  obtain ⟨h1, h2, h3, h4, h5⟩ := c3_run_invariant net hnet 5 (le_refl 5)
  have hmax : is_max_attempts_reached (c3RunWith net 5).vstate = true := by
    simp [is_max_attempts_reached, h4, max_attempts]
  refine ⟨h1, by simpa [get_status] using h5, by simpa [get_attempts] using h4,
          ?_, ?_⟩
  · intro pin
    have hcalls := (verify_pin_code_maxed (c3RunWith net 5).vstate pin
        (c3RunWith net 5).panel.currentMerchantId net2 hmax).1
    have hred : (submit_pin (c3RunWith net 5) pin net2).2 =
        (verify_pin_code (c3RunWith net 5).vstate pin
          (c3RunWith net 5).panel.currentMerchantId net2).calls := by
      simp only [submit_pin, h1]
      norm_num
      split <;> rfl
    rw [hred, hcalls]
  · rw [verify_pin_code_maxed_result (c3RunWith net 5).vstate "111111"
        (some "m-1") net2 hmax (by decide) (by decide)]

/-- Witness for the amended C3 on the concrete wrong-PIN run. -/
theorem c3_five_wrong_pins_no_sixth_call_witness :
    (c3RunWith wrongPinNet 5).panel.state = PState.awaitingCode ∧
    (submit_pin (c3RunWith wrongPinNet 5) "222222"
        ⟨true, none, none, none⟩).2 = 0 :=
  ⟨(c3_five_wrong_pins_no_sixth_call wrongPinNet ⟨true, none, none, none⟩
      (by decide)).1,
   (c3_five_wrong_pins_no_sixth_call wrongPinNet ⟨true, none, none, none⟩
      (by decide)).2.2.2.1 "222222"⟩

/-- The freshly constructed manager satisfies the invariant. -/
theorem wsInv_init : wsInv wsInit := by
  simp [wsInv, wsInit, MAX_RECONNECT_ATTEMPTS]

/-- Every manager step preserves the invariant. -/
theorem wsInv_step {st st' : WsState} {e : WsEvent}
    (hs : WsStep st e st') (hinv : wsInv st) : wsInv st' := by
  obtain ⟨hA, hT, hTerm, hPend⟩ := hinv
  cases hs with
  | connectUser uid tok =>
      by_cases hcred : (truthyInt (some uid) && truthy (some tok)) = true <;>
        simp [wsInv, ws_connect_user, ws_attempt_connect, hcred,
              MAX_RECONNECT_ATTEMPTS]
  | disconnectUser =>
      refine ⟨hA, hT, ?_, ?_⟩
      · intro h1
        exact ⟨rfl, (hTerm h1).2.1, rfl⟩
      · intro _ _
        rfl
  | opened hg =>
      refine ⟨by simp [ws_on_connected, MAX_RECONNECT_ATTEMPTS], hT, ?_, ?_⟩
      · intro h1
        rw [(hTerm h1).2.1] at hg
        cases hg
      · intro _ hge
        simp [ws_on_connected, MAX_RECONNECT_ATTEMPTS] at hge
  | dropped hg =>
      have h0 : st.termErrors = 0 := by
        by_cases he : st.termErrors = 1
        · obtain ⟨_, hf, hc⟩ := hTerm he
          rw [hf, hc] at hg
          cases hg
        · omega
      simp only [ws_on_disconnected]
      split
      · rename_i hcond
        simp only [Bool.and_eq_true, decide_eq_true_eq] at hcond
        obtain ⟨hsr, hlt10⟩ := hcond
        refine ⟨?_, by simpa using hT, ?_, ?_⟩
        · simp only [MAX_RECONNECT_ATTEMPTS] at hlt10 ⊢
          omega
        · intro h1
          simp at h1
          omega
        · intro hlive _
          simp at hlive
      · split
        · rename_i hcond hge
          simp only [decide_eq_true_eq] at hge
          have hpend : st.timerPending = false := hPend hg hge
          refine ⟨by simpa using hA, by simp [h0], ?_, ?_⟩
          · intro _
            exact ⟨hpend, rfl, rfl⟩
          · intro hlive _
            simp at hlive
        · refine ⟨by simpa using hA, by simpa using hT, ?_, ?_⟩
          · intro h1
            simp at h1
            simp [h0] at h1
          · intro hlive _
            simp at hlive
  | timerFired hg =>
      have h0 : st.termErrors ≠ 1 := by
        intro h1
        rw [(hTerm h1).1] at hg
        cases hg
      by_cases hcred : (truthyInt st.userId && truthy st.token) = true
      · refine ⟨?_, ?_, ?_, ?_⟩
        · simpa [ws_timer_fired, ws_attempt_connect, hcred] using hA
        · simpa [ws_timer_fired, ws_attempt_connect, hcred] using hT
        · intro h1
          simp [ws_timer_fired, ws_attempt_connect, hcred] at h1
          exact absurd h1 h0
        · intro _ _
          simp [ws_timer_fired, ws_attempt_connect, hcred]
      · refine ⟨?_, ?_, ?_, ?_⟩
        · simpa [ws_timer_fired, ws_attempt_connect, hcred] using hA
        · simpa [ws_timer_fired, ws_attempt_connect, hcred] using hT
        · intro h1
          simp [ws_timer_fired, ws_attempt_connect, hcred] at h1
          exact absurd h1 h0
        · intro _ _
          simp [ws_timer_fired, ws_attempt_connect, hcred]

/-- Every reachable manager state satisfies the invariant. -/
theorem wsInv_reachable : ∀ st, WsReachable st → wsInv st := by
  intro st h
  induction h with
  | init => exact wsInv_init
  | step _ hs ih => exact wsInv_step hs ih

/-- C7: on every reachable manager state the reconnect-attempts counter
never exceeds 10 and the terminal error has been emitted at most once in
the episode; the failure (`dropped`) occurring with the counter at the cap
emits the terminal error (exactly once — the counter stood at 0 before, by
the invariant) and leaves a terminal disconnected state: no reconnect
timer pending, nothing live; and from a state where the terminal error has
fired, every event except a fresh `connect_user` keeps it fired exactly
once and still schedules no reconnect. -/
theorem c7_reconnect_cap_terminal_once :
    (∀ st, WsReachable st →
      st.reconnectAttempts ≤ MAX_RECONNECT_ATTEMPTS ∧ st.termErrors ≤ 1) ∧
    (∀ st st', WsReachable st → WsStep st WsEvent.dropped st' →
      MAX_RECONNECT_ATTEMPTS ≤ st.reconnectAttempts →
      st'.termErrors = 1 ∧ st'.timerPending = false ∧
      st'.inFlight = false ∧ st'.isConnected = false) ∧
    (∀ st e st', WsReachable st → st.termErrors = 1 → WsStep st e st' →
      (∀ uid tok, e ≠ WsEvent.connectUser uid tok) →
      st'.termErrors = 1 ∧ st'.timerPending = false) := by
  refine ⟨?_, ?_, ?_⟩
  · intro st hr
    have hinv := wsInv_reachable st hr
    exact ⟨hinv.1, hinv.2.1⟩
  · intro st st' hr hs hge
    obtain ⟨hA, hT, hTerm, hPend⟩ := wsInv_reachable st hr
    cases hs with
    | dropped hg =>
        have h0 : st.termErrors = 0 := by
          by_cases he : st.termErrors = 1
          · obtain ⟨_, hf, hc⟩ := hTerm he
            rw [hf, hc] at hg
            cases hg
          · omega
        have hlt : ¬ (st.reconnectAttempts < MAX_RECONNECT_ATTEMPTS) := by omega
        have hpend : st.timerPending = false := hPend hg hge
        simp [ws_on_disconnected, hlt, hge, h0, hpend]
  · intro st e st' hr h1 hs hne
    obtain ⟨hA, hT, hTerm, hPend⟩ := wsInv_reachable st hr
    obtain ⟨hp, hf, hc⟩ := hTerm h1
    cases hs with
    | connectUser uid tok => exact absurd rfl (hne uid tok)
    | disconnectUser => simp [ws_disconnect_user, h1]
    | opened hg => rw [hf] at hg; cases hg
    | dropped hg => rw [hc, hf] at hg; cases hg
    | timerFired hg => rw [hp] at hg; cases hg

/-- Witness for C7: the initial state is reachable and within the cap, and
along the concrete run that exhausts all 10 reconnect attempts, the next
failure emits the terminal error once and schedules nothing. -/
theorem c7_reconnect_cap_terminal_once_witness :
    (wsInit.reconnectAttempts ≤ MAX_RECONNECT_ATTEMPTS ∧
      wsInit.termErrors ≤ 1) ∧
    ((ws_on_disconnected (wsSpun 10)).termErrors = 1 ∧
      (ws_on_disconnected (wsSpun 10)).timerPending = false ∧
      (ws_on_disconnected (wsSpun 10)).inFlight = false ∧
      (ws_on_disconnected (wsSpun 10)).isConnected = false) := by
  have cyc : ∀ k, WsReachable (wsSpun k) →
      ((wsSpun k).isConnected || (wsSpun k).inFlight) = true →
      (ws_on_disconnected (wsSpun k)).timerPending = true →
      WsReachable (wsSpun (k + 1)) := by
    intro k hk hg ht
    exact WsReachable.step (WsReachable.step hk (WsStep.dropped _ hg))
      (WsStep.timerFired _ ht)
  have r0 : WsReachable (wsSpun 0) :=
    WsReachable.step WsReachable.init (WsStep.connectUser wsInit 1 "t")
  have r1 := cyc 0 r0 (by decide) (by decide)
  have r2 := cyc 1 r1 (by decide) (by decide)
  have r3 := cyc 2 r2 (by decide) (by decide)
  have r4 := cyc 3 r3 (by decide) (by decide)
  have r5 := cyc 4 r4 (by decide) (by decide)
  have r6 := cyc 5 r5 (by decide) (by decide)
  have r7 := cyc 6 r6 (by decide) (by decide)
  have r8 := cyc 7 r7 (by decide) (by decide)
  have r9 := cyc 8 r8 (by decide) (by decide)
  have r10 := cyc 9 r9 (by decide) (by decide)
  exact ⟨c7_reconnect_cap_terminal_once.1 wsInit WsReachable.init,
         c7_reconnect_cap_terminal_once.2.1 (wsSpun 10) _ r10
           (WsStep.dropped _ (by decide)) (by decide)⟩

end TwoFA
